import Mathlib

/-!
Verification development for the payload-normalization core of the
TikTokDownloader repository (`src/extract/extractor.py`).

The Python code is shallowly embedded: JSON-like runtime values become the
inductive type `Data`, Python exceptions become an explicit `Except PyExc`
layer where they decide behaviour, and external collaborators (text cleaner,
`strftime`/`localtime`/`fromtimestamp`, the custom-filter hook, the recorder)
are parameters of an `Env` structure, mirroring the fact that the source
receives them by injection.
-/

set_option maxRecDepth 10000

namespace TTD

/-- Python runtime values as they occur in the payload trees handled by
`Extractor`.  `ns` models a `SimpleNamespace` produced by
`generate_data_object`; at the raw (pre-conversion) layer the same
constructor models a `dict`, since `depth_conversion` is a structure-
preserving bijection between the two shapes.  Python object attributes that
are not payload fields (methods, dunders) are outside the payload data model
and are not represented.  Payload numerics are modelled as integers. -/
inductive Data where
  | null : Data
  | bool : Bool → Data
  | int : Int → Data
  | str : String → Data
  | list : List Data → Data
  | ns : List (String × Data) → Data

instance : Inhabited Data := ⟨Data.null⟩

/-- Python truthiness (`bool(x)`) for the values of `Data`.  A
`SimpleNamespace` has no `__bool__`/`__len__`, so it is always truthy. -/
def Data.truthy : Data → Bool
  | .null => false
  | .bool b => b
  | .int n => n != 0
  | .str s => s != ""
  | .list l => !l.isEmpty
  | .ns _ => true

/-- `getattr(d, k, None)`: attribute lookup with a `None` default, as used by
`Extractor.safe_extract`.  Only namespace nodes carry attributes. -/
def Data.getattr (d : Data) (k : String) : Data :=
  match d with
  | .ns fields => (fields.lookup k).getD .null
  | _ => .null

/-- Plain attribute access `d.k` (no default): `none` models the
`AttributeError` raised when the attribute is missing. -/
def Data.attr? (d : Data) (k : String) : Option Data :=
  match d with
  | .ns fields => fields.lookup k
  | _ => none

/-- The Python exceptions that drive control flow in the extractor. -/
inductive PyExc where
  | attributeError : PyExc
  | indexError : PyExc
  | keyError : PyExc
  | typeError : PyExc
  | valueError : PyExc
deriving DecidableEq

/-- Python sequence subscripting `l[i]` with negative indices counted from
the end; `none` models `IndexError`. -/
def pyGet {α : Type} (l : List α) (i : Int) : Option α :=
  if 0 ≤ i then l.get? i.toNat
  else if (-i).toNat ≤ l.length then l.get? (l.length - (-i).toNat)
  else none

/-- Decimal digit string to number; `none` when a non-digit occurs. -/
def parseNatAux : List Char → Nat → Option Nat
  | [], acc => some acc
  | c :: cs, acc =>
    if c.isDigit then parseNatAux cs (acc * 10 + (c.toNat - 48)) else none

/-- All-digit parse of a non-empty character list. -/
def parseNat : List Char → Option Nat
  | [] => none
  | l => parseNatAux l 0

/-- `int(s)` on a decimal literal with an optional leading minus, the only
shapes the extractor ever writes into a path.  (Python additionally accepts
surrounding whitespace, `+` and `_` separators.) -/
def pyInt? (s : String) : Option Int :=
  match s.data with
  | '-' :: rest => (parseNat rest).map (fun n => -(n : Int))
  | l => (parseNat l).map (fun n => (n : Int))

/-- `int(s)`: parsing the index string of a path segment; `ValueError` on
garbage. -/
def pyIntParse (s : String) : Except PyExc Int :=
  match pyInt? s with
  | some n => .ok n
  | none => .error .valueError

/-- Python subscripting `d[i]` on a payload value: lists and strings are
subscriptable (out of range raises `IndexError`), everything else raises
`TypeError`.  Trees built by `generate_data_object` contain no `dict`
nodes, so `KeyError` cannot arise here. -/
def pySubscript (d : Data) (i : Int) : Except PyExc Data :=
  match d with
  | .list l =>
    match pyGet l i with
    | some v => .ok v
    | none => .error .indexError
  | .str s =>
    match pyGet s.data i with
    | some c => .ok (.str (String.singleton c))
    | none => .error .indexError
  | _ => .error .typeError

/-- `s.split(".")` (split on every dot, adjacent dots give empty segments,
the empty string gives one empty segment), written structurally so that it
evaluates by `rfl`. -/
def splitDotAux : List Char → List Char → List String
  | [], acc => [String.mk acc.reverse]
  | c :: cs, acc =>
    if c = '.' then String.mk acc.reverse :: splitDotAux cs []
    else splitDotAux cs (c :: acc)

/-- `attribute_chain.split(".")`. -/
def pySplitDot (s : String) : List String := splitDotAux s.data []

/-- `s.split(c, 1)` on the character level: split at the first occurrence of
`c`, or `none` when `c` does not occur (models the `"[" in attribute`
test together with the split). -/
def splitOnceChars (c : Char) : List Char → Option (List Char × List Char)
  | [] => none
  | x :: xs =>
    if x = c then some ([], xs)
    else
      match splitOnceChars c xs with
      | some (l, r) => some (x :: l, r)
      | none => none

/-- `s.split(c, 1)[0]`: the characters before the first occurrence of `c`
(all of them when `c` does not occur). -/
def takeUntilChar (c : Char) : List Char → List Char
  | [] => []
  | x :: xs => if x = c then [] else x :: takeUntilChar c xs

/-- The `try` block of an indexed path segment in `Extractor.safe_extract`:
`index = int(index); data = getattr(data, attribute, None)[index]`. -/
def tryIndexStep (d : Data) (attr : String) (idxStr : String) :
    Except PyExc Data :=
  match pyIntParse idxStr with
  | .error e => .error e
  | .ok i => pySubscript (d.getattr attr) i

/-- The segment loop of `Extractor.safe_extract`, with the exception layer
explicit.  The `except (IndexError, TypeError, ValueError)` clause of the
source catches exactly those three exceptions; any other exception would
propagate as `.error` (the theorem for claim C2 shows this never happens). -/
def resolveSegsE (d : Data) (segs : List String) (dflt : Data) :
    Except PyExc Data :=
  match segs with
  | [] => .ok (if d.truthy then d else dflt)
  | seg :: rest =>
    match splitOnceChars '[' seg.data with
    | some (attrCs, afterCs) =>
      match tryIndexStep d (String.mk attrCs)
          (String.mk (takeUntilChar ']' afterCs)) with
      | .ok v => resolveSegsE v rest dflt
      | .error .indexError => .ok dflt
      | .error .typeError => .ok dflt
      | .error .valueError => .ok dflt
      | .error e => .error e
    | none =>
      let v := d.getattr seg
      if v.truthy then resolveSegsE v rest dflt else .ok dflt

/-- `Extractor.safe_extract` with the exception layer still visible. -/
def safe_extractE (d : Data) (chain : String) (dflt : Data) :
    Except PyExc Data :=
  resolveSegsE d (pySplitDot chain) dflt

/-- `Extractor.safe_extract`.  The `.error` branch is provably dead (claim
C2); it is kept so the definition is total. -/
def safe_extract (d : Data) (chain : String) (dflt : Data) : Data :=
  match safe_extractE d chain dflt with
  | .ok v => v
  | .error _ => dflt

/-- Subscripting a payload value raises only `IndexError` or `TypeError`. -/
theorem pySubscript_error_cases (d : Data) (i : Int) (e : PyExc)
    (h : pySubscript d i = .error e) :
    e = .indexError ∨ e = .typeError := by
  unfold pySubscript at h
  split at h
  · split at h
    · exact Except.noConfusion h
    · cases h; left; rfl
  · split at h
    · exact Except.noConfusion h
    · cases h; left; rfl
  · cases h; right; rfl

/-- Every outcome of the `try` block of an indexed segment is either a value
or one of the three exception classes named by the `except` clause. -/
theorem tryIndexStep_error_cases (d : Data) (attr idxStr : String)
    (e : PyExc) (h : tryIndexStep d attr idxStr = .error e) :
    e = .indexError ∨ e = .typeError ∨ e = .valueError := by
  unfold tryIndexStep at h
  split at h
  · rename_i e' heq
    cases h
    right; right
    unfold pyIntParse at heq
    split at heq
    · exact Except.noConfusion heq
    · cases heq; rfl
  · rcases pySubscript_error_cases _ _ _ h with h1 | h2
    · exact Or.inl h1
    · exact Or.inr (Or.inl h2)

/-- The segment loop never lets an exception escape: every exception the
`try` block can produce is named by the `except` clause. -/
theorem resolveSegsE_ok (segs : List String) :
    ∀ (d dflt : Data), ∃ r, resolveSegsE d segs dflt = .ok r := by
  induction segs with
  | nil => intro d dflt; exact ⟨_, rfl⟩
  | cons seg rest ih =>
    intro d dflt
    unfold resolveSegsE
    cases hs : splitOnceChars '[' seg.data with
    | none =>
      by_cases ht : (d.getattr seg).truthy
      · simpa [ht] using ih (d.getattr seg) dflt
      · exact ⟨dflt, by simp [ht]⟩
    | some p =>
      obtain ⟨attrCs, afterCs⟩ := p
      cases hstep : tryIndexStep d (String.mk attrCs)
          (String.mk (takeUntilChar ']' afterCs)) with
      | ok v => simpa [hstep] using ih v dflt
      | error e =>
        rcases tryIndexStep_error_cases _ _ _ _ hstep with h1 | h2 | h3
        · exact ⟨dflt, by simp [hstep, h1]⟩
        · exact ⟨dflt, by simp [hstep, h2]⟩
        · exact ⟨dflt, by simp [hstep, h3]⟩

/-- Claim C2.  `safe_extract` never raises: for every data-object tree (the
type `Data` is exactly the image of `generate_data_object`, which eliminates
`dict` nodes), every path string and every default, the run of the source's
`try`/`except`-structured loop terminates with a value rather than a
propagated exception — a missing named child, an out-of-range (also
negative) index, a non-integer index and a type mismatch are all caught and
collapse to the caller default.  In particular, resolving `"a.b[0].c"`
against a tree where `a.b` is an empty sequence returns the default. -/
theorem c2_safe_extract_never_raises :
    (∀ (d : Data) (chain : String) (dflt : Data),
      ∃ r, safe_extractE d chain dflt = .ok r) ∧
    (∀ dflt : Data,
      safe_extract (.ns [("a", .ns [("b", .list [])])]) "a.b[0].c" dflt
        = dflt) := by
  constructor
  · intro d chain dflt
    exact resolveSegsE_ok (pySplitDot chain) d dflt
  · intro dflt
    rfl

/-- The path resolver as §4.1 of the spec words it, for the refinement
comparison of claim C6: at an intermediate *named* segment only absence of
the child (`getattr` yielding `None`) triggers the default, a
present-but-falsy child does not by itself; index failures still yield the
default; a falsy resolved value is replaced by the default at the final
segment only. -/
def resolveSegsSpec (d : Data) (segs : List String) (dflt : Data) : Data :=
  match segs with
  | [] => if d.truthy then d else dflt
  | seg :: rest =>
    match splitOnceChars '[' seg.data with
    | some (attrCs, afterCs) =>
      match tryIndexStep d (String.mk attrCs)
          (String.mk (takeUntilChar ']' afterCs)) with
      | .ok v => resolveSegsSpec v rest dflt
      | .error _ => dflt
    | none =>
      match d.getattr seg with
      | .null => dflt
      | v => resolveSegsSpec v rest dflt

/-- Spec-worded counterpart of `safe_extract` (claim C6). -/
def safe_extract_spec (d : Data) (chain : String) (dflt : Data) : Data :=
  resolveSegsSpec d (pySplitDot chain) dflt

/-- A falsy node has no attributes: only namespaces carry attributes and a
namespace is always truthy. -/
theorem getattr_of_falsy (d : Data) (k : String) (h : d.truthy = false) :
    d.getattr k = .null := by
  cases d with
  | ns fields => simp [Data.truthy] at h
  | null => rfl
  | bool b => rfl
  | int n => rfl
  | str s => rfl
  | list l => rfl

/-- From a falsy node, the spec-worded resolver can only produce the
default: every continuation path fails. -/
theorem resolveSegsSpec_falsy (segs : List String) :
    ∀ (d dflt : Data), d.truthy = false →
      resolveSegsSpec d segs dflt = dflt := by
  induction segs with
  | nil => intro d dflt h; simp [resolveSegsSpec, h]
  | cons seg rest ih =>
    intro d dflt h
    unfold resolveSegsSpec
    cases hs : splitOnceChars '[' seg.data with
    | none => simp [getattr_of_falsy d seg h]
    | some p =>
      obtain ⟨attrCs, afterCs⟩ := p
      have hstep : ∀ v, tryIndexStep d (String.mk attrCs)
          (String.mk (takeUntilChar ']' afterCs)) ≠ .ok v := by
        intro v hv
        unfold tryIndexStep at hv
        split at hv
        · exact Except.noConfusion hv
        · rw [getattr_of_falsy d _ h] at hv
          unfold pySubscript at hv
          exact Except.noConfusion hv
      cases hres : tryIndexStep d (String.mk attrCs)
          (String.mk (takeUntilChar ']' afterCs)) with
      | ok v => exact absurd hres (hstep v)
      | error e => simp [hres]

/-- The source resolver and the spec-worded resolver agree on every input:
the source's early `return default` on a present-but-falsy intermediate
child is extensionally invisible, because no continuation from a falsy node
can succeed. -/
theorem resolveSegs_eq_spec (segs : List String) :
    ∀ (d dflt : Data),
      (match resolveSegsE d segs dflt with
        | .ok v => v
        | .error _ => dflt) = resolveSegsSpec d segs dflt := by
  induction segs with
  | nil => intro d dflt; rfl
  | cons seg rest ih =>
    intro d dflt
    unfold resolveSegsE resolveSegsSpec
    cases hs : splitOnceChars '[' seg.data with
    | some p =>
      obtain ⟨attrCs, afterCs⟩ := p
      dsimp only
      cases hstep : tryIndexStep d (String.mk attrCs)
          (String.mk (takeUntilChar ']' afterCs)) with
      | ok v => exact ih v dflt
      | error e =>
        rcases tryIndexStep_error_cases _ _ _ _ hstep with h1 | h2 | h3 <;>
          subst_vars <;> rfl
    | none =>
      dsimp only
      cases hg : d.getattr seg with
      | null => simp [Data.truthy]
      | ns fields =>
        simpa [Data.truthy] using ih (Data.ns fields) dflt
      | bool b =>
        by_cases ht : (Data.bool b).truthy
        · simpa [ht] using ih (Data.bool b) dflt
        · rw [if_neg ht]
          exact (resolveSegsSpec_falsy rest (Data.bool b) dflt
            (by simpa using ht)).symm
      | int n =>
        by_cases ht : (Data.int n).truthy
        · simpa [ht] using ih (Data.int n) dflt
        · rw [if_neg ht]
          exact (resolveSegsSpec_falsy rest (Data.int n) dflt
            (by simpa using ht)).symm
      | str s =>
        by_cases ht : (Data.str s).truthy
        · simpa [ht] using ih (Data.str s) dflt
        · rw [if_neg ht]
          exact (resolveSegsSpec_falsy rest (Data.str s) dflt
            (by simpa using ht)).symm
      | list l =>
        by_cases ht : (Data.list l).truthy
        · simpa [ht] using ih (Data.list l) dflt
        · rw [if_neg ht]
          exact (resolveSegsSpec_falsy rest (Data.list l) dflt
            (by simpa using ht)).symm

/-- Claim C6.  Path resolution replaces a falsy resolved value by the
default at the final segment only, and at intermediate named segments only
absence of the child decides: the source resolver coincides extensionally
with the spec-worded resolver on every tree, path and default.  In
particular resolving `"a.b"` where `b` exists and equals `""` returns the
default, and resolving `"a.c[2]"` where `a.c` has a single element returns
the default. -/
theorem c6_falsy_leaf_vs_absence :
    (∀ (d : Data) (chain : String) (dflt : Data),
      safe_extract d chain dflt = safe_extract_spec d chain dflt) ∧
    (∀ dflt : Data,
      safe_extract (.ns [("a", .ns [("b", .str "")])]) "a.b" dflt = dflt) ∧
    (∀ dflt : Data,
      safe_extract (.ns [("a", .ns [("c", .list [.str "v1"])])]) "a.c[2]"
        dflt = dflt) := by
  refine ⟨?_, ?_, ?_⟩
  · intro d chain dflt
    exact resolveSegs_eq_spec (pySplitDot chain) d dflt
  · intro dflt; rfl
  · intro dflt; rfl

/-! ## Quality selector (`__extract_video_download`, `…_tiktok`) -/

/-- One parsed Source-A media variant, as produced by the tuple
comprehension `(i.FPS, i.bit_rate, i.play_addr.data_size,
i.play_addr.height, i.play_addr.width, i.play_addr.url_list)`.  The numeric
sub-fields are modelled at the integer type the platform schema guarantees;
URL candidates are kept as raw payload values. -/
structure BitRateA where
  FPS : Int
  bit_rate : Int
  data_size : Int
  height : Int
  width : Int
  url_list : List Data

/-- One parsed Source-B (TikTok) media variant: `(i.Bitrate,
i.PlayAddr.DataSize, i.PlayAddr.Height, i.PlayAddr.Width,
i.PlayAddr.UrlList)`. -/
structure BitRateT where
  Bitrate : Int
  DataSize : Int
  Height : Int
  Width : Int
  UrlList : List Data

/-- An integer payload value (`bool` is an `int` subtype in Python). -/
def Data.asInt? : Data → Option Int
  | .int n => some n
  | .bool b => some (if b then 1 else 0)
  | _ => none

/-- A list payload value. -/
def Data.asList? : Data → Option (List Data)
  | .list l => some l
  | _ => none

/-- The per-variant tuple build for Source-A.  `none` models the
`AttributeError` raised when a sub-field is missing (a present sub-field of
an unexpected type is also mapped to `none`; in Python such a value would
instead poison the later sort — no claim reaches that corner). -/
def parseBitRateA (i : Data) : Option BitRateA := do
  let fps ← (← i.attr? "FPS").asInt?
  let br ← (← i.attr? "bit_rate").asInt?
  let pa ← i.attr? "play_addr"
  let ds ← (← pa.attr? "data_size").asInt?
  let h ← (← pa.attr? "height").asInt?
  let w ← (← pa.attr? "width").asInt?
  let ul ← (← pa.attr? "url_list").asList?
  pure ⟨fps, br, ds, h, w, ul⟩

/-- The per-variant tuple build for Source-B. -/
def parseBitRateT (i : Data) : Option BitRateT := do
  let br ← (← i.attr? "Bitrate").asInt?
  let pa ← i.attr? "PlayAddr"
  let ds ← (← pa.attr? "DataSize").asInt?
  let h ← (← pa.attr? "Height").asInt?
  let w ← (← pa.attr? "Width").asInt?
  let ul ← (← pa.attr? "UrlList").asList?
  pure ⟨br, ds, h, w, ul⟩

/-- The Source-A sort key `(max(x[3], x[4]), x[0], x[1], x[2])`, i.e.
`(max(height, width), FPS, bit_rate, data_size)`, compared as a Python
tuple (lexicographically). -/
def keyA (v : BitRateA) : Lex (Int × Lex (Int × Lex (Int × Int))) :=
  toLex (max v.height v.width, toLex (v.FPS, toLex (v.bit_rate, v.data_size)))

/-- The Source-B sort key `(max(x[2], x[3]), x[0], x[1])`, i.e.
`(max(Height, Width), Bitrate, DataSize)`. -/
def keyT (v : BitRateT) : Lex (Int × Lex (Int × Int)) :=
  toLex (max v.Height v.Width, toLex (v.Bitrate, v.DataSize))

/-- Ascending comparison used by `bit_rate.sort(key=…)` for Source-A. -/
def leA (x y : BitRateA) : Prop := keyA x ≤ keyA y

/-- Ascending comparison used by `bitrate_info.sort(key=…)` for Source-B. -/
def leT (x y : BitRateT) : Prop := keyT x ≤ keyT y

instance : DecidableRel leA := fun x y =>
  inferInstanceAs (Decidable (keyA x ≤ keyA y))

instance : DecidableRel leT := fun x y =>
  inferInstanceAs (Decidable (keyT x ≤ keyT y))

instance : IsTotal BitRateA leA := ⟨fun x y => le_total (keyA x) (keyA y)⟩

instance : IsTrans BitRateA leA :=
  ⟨fun _ _ _ h1 h2 =>
    le_trans (α := Lex (Int × Lex (Int × Lex (Int × Int)))) h1 h2⟩

instance : IsTotal BitRateT leT := ⟨fun x y => le_total (keyT x) (keyT y)⟩

instance : IsTrans BitRateT leT :=
  ⟨fun _ _ _ h1 h2 => le_trans (α := Lex (Int × Lex (Int × Int))) h1 h2⟩

/-- `for i in x`: the extractor iterates the variant array, which the
schema guarantees to be a list (`safe_extract`'s fallback default already
is `[]`).  Iterating a truthy non-list payload value is outside the
modelled scope. -/
def pyIter : Data → List Data
  | .list l => l
  | _ => []

/-- The tuple comprehension over the Source-A variant array: left to right,
the first missing sub-field raises (`none`), otherwise all typed tuples are
built. -/
def buildTuplesA : List Data → Option (List BitRateA)
  | [] => some []
  | i :: rest => do
    let v ← parseBitRateA i
    let vs ← buildTuplesA rest
    pure (v :: vs)

/-- The tuple comprehension over the Source-B variant array. -/
def buildTuplesT : List Data → Option (List BitRateT)
  | [] => some []
  | i :: rest => do
    let v ← parseBitRateT i
    let vs ← buildTuplesT rest
    pure (v :: vs)

/-- `Extractor.__extract_video_download` (Source-A), with the degrade log
call recorded as the boolean component.  The comprehension either builds
all typed tuples (`mapM`) or raises `AttributeError`, in which case the
name `bit_rate` still holds the raw variant list (a comprehension's
assignment only happens after it completes) and the `except AttributeError`
branch rebuilds a best-effort triple from the first raw variant via
`safe_extract`.  Selecting `url_list[-1]` from the winning variant can
raise an uncaught `IndexError` when its candidate list is empty. -/
def extract_video_download (data : Data) :
    Except PyExc ((Data × Data × Data) × Bool) :=
  let bl := pyIter (safe_extract data "video.bit_rate" (.list []))
  match buildTuplesA bl with
  | some vs =>
    match (List.insertionSort leA vs).getLast? with
    | none => .ok ((.int (-1), .int (-1), .str ""), false)
    | some v =>
      match pyGet v.url_list (-1) with
      | some u => .ok ((.int v.height, .int v.width, u), false)
      | none => .error .indexError
  | none =>
    match bl with
    | [] => .error .attributeError
    | b :: _ =>
      .ok ((safe_extract b "play_addr.height" (.int (-1)),
            safe_extract b "play_addr.width" (.int (-1)),
            safe_extract b "play_addr.url_list[-1]" (.str "")), true)

/-- `Extractor.__extract_video_download_tiktok` (Source-B).  The URL index
`VIDEO_TIKTOK_INDEX` is a fixed configuration constant whose definition is
not part of the sources under scrutiny; it is passed as a parameter. -/
def extract_video_download_tiktok (videoTiktokIndex : Int) (data : Data) :
    Except PyExc ((Data × Data × Data) × Bool) :=
  let bl := pyIter (safe_extract data "video.bitrateInfo" (.list []))
  match buildTuplesT bl with
  | some vs =>
    match (List.insertionSort leT vs).getLast? with
    | none => .ok ((.int (-1), .int (-1), .str ""), false)
    | some v =>
      match pyGet v.UrlList videoTiktokIndex with
      | some u => .ok ((.int v.Height, .int v.Width, u), false)
      | none => .error .indexError
  | none =>
    match bl with
    | [] => .error .attributeError
    | b :: _ =>
      .ok ((safe_extract b "PlayAddr.Height" (.int (-1)),
            safe_extract b "PlayAddr.Width" (.int (-1)),
            safe_extract b
              ("PlayAddr.UrlList[" ++ toString videoTiktokIndex ++ "]")
              (.str "")), true)

/-- A well-formed Source-A variant, written back as the payload namespace
the comprehension reads. -/
def encodeBitRateA (v : BitRateA) : Data :=
  .ns [("FPS", .int v.FPS), ("bit_rate", .int v.bit_rate),
       ("play_addr", .ns [("data_size", .int v.data_size),
                          ("height", .int v.height),
                          ("width", .int v.width),
                          ("url_list", .list v.url_list)])]

/-- A well-formed Source-B variant, written back as a payload namespace. -/
def encodeBitRateT (v : BitRateT) : Data :=
  .ns [("Bitrate", .int v.Bitrate),
       ("PlayAddr", .ns [("DataSize", .int v.DataSize),
                         ("Height", .int v.Height),
                         ("Width", .int v.Width),
                         ("UrlList", .list v.UrlList)])]

/-- A Source-A item whose `video.bit_rate` array is the given variant
list. -/
def mkVideoDataA (vs : List BitRateA) : Data :=
  .ns [("video", .ns [("bit_rate", .list (vs.map encodeBitRateA))])]

/-- A Source-B item whose `video.bitrateInfo` array is the given variant
list. -/
def mkVideoDataT (vs : List BitRateT) : Data :=
  .ns [("video", .ns [("bitrateInfo", .list (vs.map encodeBitRateT))])]

theorem parse_encodeA (v : BitRateA) :
    parseBitRateA (encodeBitRateA v) = some v := rfl

theorem parse_encodeT (v : BitRateT) :
    parseBitRateT (encodeBitRateT v) = some v := rfl

theorem buildTuplesA_encode (vs : List BitRateA) :
    buildTuplesA (vs.map encodeBitRateA) = some vs := by
  induction vs with
  | nil => rfl
  | cons v rest ih => simp [buildTuplesA, parse_encodeA, ih]

theorem buildTuplesT_encode (vs : List BitRateT) :
    buildTuplesT (vs.map encodeBitRateT) = some vs := by
  induction vs with
  | nil => rfl
  | cons v rest ih => simp [buildTuplesT, parse_encodeT, ih]

theorem pyIter_mkVideoDataA (vs : List BitRateA) :
    pyIter (safe_extract (mkVideoDataA vs) "video.bit_rate" (.list []))
      = vs.map encodeBitRateA := by
  cases vs with
  | nil => rfl
  | cons v rest => rfl

theorem pyIter_mkVideoDataT (vs : List BitRateT) :
    pyIter (safe_extract (mkVideoDataT vs) "video.bitrateInfo" (.list []))
      = vs.map encodeBitRateT := by
  cases vs with
  | nil => rfl
  | cons v rest => rfl

instance : IsRefl BitRateA leA := ⟨fun x => le_refl (keyA x)⟩

instance : IsRefl BitRateT leT := ⟨fun x => le_refl (keyT x)⟩

/-- The last element of a sorted list is an upper bound of the list. -/
theorem sorted_getLast?_le {α : Type} {r : α → α → Prop} [IsRefl α r] :
    ∀ (l : List α), List.Sorted r l → ∀ v, l.getLast? = some v →
      ∀ a ∈ l, r a v := by
  intro l
  induction l with
  | nil => intro _ v hv; cases hv
  | cons x xs ih =>
    intro hs v hv a ha
    cases xs with
    | nil =>
      simp at hv ha
      subst hv; subst ha
      exact IsRefl.refl a
    | cons y ys =>
      rw [List.getLast?_cons_cons] at hv
      rcases List.mem_cons.mp ha with rfl | ha'
      · exact (List.sorted_cons.mp hs).1 v
          (List.mem_of_getLast?_eq_some hv)
      · exact ih (List.sorted_cons.mp hs).2 v hv a ha'

/-- Claim C3.  The quality selector sorts the typed variant list ascending
by the Python tuple `(max(height, width), frame_rate, bit_rate, byte_size)`
(`(max(Height, Width), Bitrate, DataSize)` for Source-B) and selects the
last element — which the theorem also certifies to be a member of the list
maximal for that key; the value returned is `(height, width, last url
candidate)` for Source-A and `(height, width, url_candidates[configured
index])` for Source-B; an empty variant list yields the sentinel
`(-1, -1, "")`; and on the two concrete example variants the Source-A
selector returns `(1080, 1920, "u3")`. -/
theorem c3_quality_selector :
    (∀ (vs : List BitRateA) (v : BitRateA),
      (List.insertionSort leA vs).getLast? = some v →
      ∀ u, pyGet v.url_list (-1) = some u →
        extract_video_download (mkVideoDataA vs)
            = .ok ((.int v.height, .int v.width, u), false)
          ∧ v ∈ vs ∧ ∀ w ∈ vs, leA w v) ∧
    (∀ (idx : Int) (vs : List BitRateT) (v : BitRateT),
      (List.insertionSort leT vs).getLast? = some v →
      ∀ u, pyGet v.UrlList idx = some u →
        extract_video_download_tiktok idx (mkVideoDataT vs)
            = .ok ((.int v.Height, .int v.Width, u), false)
          ∧ v ∈ vs ∧ ∀ w ∈ vs, leT w v) ∧
    (extract_video_download (mkVideoDataA [])
        = .ok ((.int (-1), .int (-1), .str ""), false)) ∧
    (∀ idx : Int, extract_video_download_tiktok idx (mkVideoDataT [])
        = .ok ((.int (-1), .int (-1), .str ""), false)) ∧
    (extract_video_download (mkVideoDataA
        [⟨30, 1000, 500, 480, 720, [.str "u1"]⟩,
         ⟨60, 2000, 900, 1080, 1920, [.str "u2", .str "u3"]⟩])
        = .ok ((.int 1080, .int 1920, .str "u3"), false)) := by
  refine ⟨?_, ?_, rfl, fun idx => rfl, rfl⟩
  · intro vs v hlast u hurl
    have hmem : v ∈ vs :=
      (List.perm_insertionSort leA vs).mem_iff.mp
        (List.mem_of_getLast?_eq_some hlast)
    have hmax : ∀ w ∈ vs, leA w v := by
      intro w hw
      exact sorted_getLast?_le _ (List.sorted_insertionSort leA vs) v hlast
        w ((List.perm_insertionSort leA vs).mem_iff.mpr hw)
    refine ⟨?_, hmem, hmax⟩
    unfold extract_video_download
    rw [pyIter_mkVideoDataA]
    simp only [buildTuplesA_encode, hlast, hurl]
  · intro idx vs v hlast u hurl
    have hmem : v ∈ vs :=
      (List.perm_insertionSort leT vs).mem_iff.mp
        (List.mem_of_getLast?_eq_some hlast)
    have hmax : ∀ w ∈ vs, leT w v := by
      intro w hw
      exact sorted_getLast?_le _ (List.sorted_insertionSort leT vs) v hlast
        w ((List.perm_insertionSort leT vs).mem_iff.mpr hw)
    refine ⟨?_, hmem, hmax⟩
    unfold extract_video_download_tiktok
    rw [pyIter_mkVideoDataT]
    simp only [buildTuplesT_encode, hlast, hurl]

/-- Witness for C3: the two general conjuncts applied at the concrete
example lists, hypotheses discharged by evaluation. -/
theorem c3_quality_selector_witness :
    (extract_video_download (mkVideoDataA
        [⟨30, 1000, 500, 480, 720, [.str "u1"]⟩,
         ⟨60, 2000, 900, 1080, 1920, [.str "u2", .str "u3"]⟩])
        = .ok ((.int 1080, .int 1920, .str "u3"), false)
      ∧ (⟨60, 2000, 900, 1080, 1920, [.str "u2", .str "u3"]⟩ : BitRateA)
          ∈ [⟨30, 1000, 500, 480, 720, [.str "u1"]⟩,
             ⟨60, 2000, 900, 1080, 1920, [.str "u2", .str "u3"]⟩]
      ∧ ∀ w ∈ [(⟨30, 1000, 500, 480, 720, [.str "u1"]⟩ : BitRateA),
               ⟨60, 2000, 900, 1080, 1920, [.str "u2", .str "u3"]⟩],
          leA w ⟨60, 2000, 900, 1080, 1920, [.str "u2", .str "u3"]⟩) ∧
    (extract_video_download_tiktok 0 (mkVideoDataT
        [⟨900, 2000, 1080, 1920, [.str "t1", .str "t2"]⟩])
        = .ok ((.int 1080, .int 1920, .str "t1"), false)
      ∧ (⟨900, 2000, 1080, 1920, [.str "t1", .str "t2"]⟩ : BitRateT)
          ∈ [⟨900, 2000, 1080, 1920, [.str "t1", .str "t2"]⟩]
      ∧ ∀ w ∈ [(⟨900, 2000, 1080, 1920, [.str "t1", .str "t2"]⟩ : BitRateT)],
          leT w ⟨900, 2000, 1080, 1920, [.str "t1", .str "t2"]⟩) :=
  ⟨c3_quality_selector.1
      [⟨30, 1000, 500, 480, 720, [.str "u1"]⟩,
       ⟨60, 2000, 900, 1080, 1920, [.str "u2", .str "u3"]⟩]
      ⟨60, 2000, 900, 1080, 1920, [.str "u2", .str "u3"]⟩ rfl
      (.str "u3") rfl,
   c3_quality_selector.2.1 0
      [⟨900, 2000, 1080, 1920, [.str "t1", .str "t2"]⟩]
      ⟨900, 2000, 1080, 1920, [.str "t1", .str "t2"]⟩ rfl
      (.str "t1") rfl⟩

/-- A Source-A variant lacks one of the sub-fields the tuple comprehension
reads (the situation whose `AttributeError` the degrade path catches). -/
def lacksFieldA (i : Data) : Prop :=
  i.attr? "FPS" = none ∨ i.attr? "bit_rate" = none ∨
  i.attr? "play_addr" = none ∨
  ∃ pa, i.attr? "play_addr" = some pa ∧
    (pa.attr? "data_size" = none ∨ pa.attr? "height" = none ∨
     pa.attr? "width" = none ∨ pa.attr? "url_list" = none)

/-- A Source-B variant lacks one of the expected sub-fields. -/
def lacksFieldT (i : Data) : Prop :=
  i.attr? "Bitrate" = none ∨ i.attr? "PlayAddr" = none ∨
  ∃ pa, i.attr? "PlayAddr" = some pa ∧
    (pa.attr? "DataSize" = none ∨ pa.attr? "Height" = none ∨
     pa.attr? "Width" = none ∨ pa.attr? "UrlList" = none)

theorem parseBitRateA_none_of_lacks (i : Data) (h : lacksFieldA i) :
    parseBitRateA i = none := by
  cases hp : parseBitRateA i with
  | none => rfl
  | some v =>
    exfalso
    rw [parseBitRateA] at hp
    simp only [bind, Option.bind_eq_some, Option.pure_def,
      Option.some.injEq] at hp
    obtain ⟨fv, hfv, fps, hfps, bv, hbv, br, hbr, pa, hpa, dv, hdv, ds, hds,
      hv, hhv, ht, hht, wv, hwv, w, hw, ulv, hulv, ul, hul, hveq⟩ := hp
    rcases h with h | h | h | ⟨pa', hpa', h⟩
    · rw [h] at hfv; exact Option.noConfusion hfv
    · rw [h] at hbv; exact Option.noConfusion hbv
    · rw [h] at hpa; exact Option.noConfusion hpa
    · rw [hpa] at hpa'
      injection hpa' with hee
      subst hee
      rcases h with h | h | h | h
      · rw [h] at hdv; exact Option.noConfusion hdv
      · rw [h] at hhv; exact Option.noConfusion hhv
      · rw [h] at hwv; exact Option.noConfusion hwv
      · rw [h] at hulv; exact Option.noConfusion hulv

theorem parseBitRateT_none_of_lacks (i : Data) (h : lacksFieldT i) :
    parseBitRateT i = none := by
  cases hp : parseBitRateT i with
  | none => rfl
  | some v =>
    exfalso
    rw [parseBitRateT] at hp
    simp only [bind, Option.bind_eq_some, Option.pure_def,
      Option.some.injEq] at hp
    obtain ⟨bv, hbv, br, hbr, pa, hpa, dv, hdv, ds, hds, hv, hhv, ht, hht,
      wv, hwv, w, hw, ulv, hulv, ul, hul, hveq⟩ := hp
    rcases h with h | h | ⟨pa', hpa', h⟩
    · rw [h] at hbv; exact Option.noConfusion hbv
    · rw [h] at hpa; exact Option.noConfusion hpa
    · rw [hpa] at hpa'
      injection hpa' with hee
      subst hee
      rcases h with h | h | h | h
      · rw [h] at hdv; exact Option.noConfusion hdv
      · rw [h] at hhv; exact Option.noConfusion hhv
      · rw [h] at hwv; exact Option.noConfusion hwv
      · rw [h] at hulv; exact Option.noConfusion hulv

theorem buildTuplesA_none_of_mem (l : List Data) (b : Data) (hb : b ∈ l)
    (hp : parseBitRateA b = none) : buildTuplesA l = none := by
  induction l with
  | nil => cases hb
  | cons x xs ih =>
    rcases List.mem_cons.mp hb with rfl | hb'
    · simp [buildTuplesA, hp]
    · cases hx : parseBitRateA x with
      | none => simp [buildTuplesA, hx]
      | some v => simp [buildTuplesA, hx, ih hb']

theorem buildTuplesT_none_of_mem (l : List Data) (b : Data) (hb : b ∈ l)
    (hp : parseBitRateT b = none) : buildTuplesT l = none := by
  induction l with
  | nil => cases hb
  | cons x xs ih =>
    rcases List.mem_cons.mp hb with rfl | hb'
    · simp [buildTuplesT, hp]
    · cases hx : parseBitRateT x with
      | none => simp [buildTuplesT, hx]
      | some v => simp [buildTuplesT, hx, ih hb']

/-- Claim C7.  On a non-empty variant list in which some variant lacks an
expected sub-field, the quality selector neither raises nor drops the item:
it takes the `except AttributeError` path, logs (the `true` flag), and
returns the first raw variant's height and width — each independently
defaulting to `-1` when absent — together with its last (Source-A) or
configured-index (Source-B) URL candidate, defaulting to `""`. -/
theorem c7_quality_degrade :
    (∀ (data b0 : Data) (rest : List Data),
      pyIter (safe_extract data "video.bit_rate" (.list [])) = b0 :: rest →
      (∃ b ∈ b0 :: rest, lacksFieldA b) →
      extract_video_download data
        = .ok ((safe_extract b0 "play_addr.height" (.int (-1)),
                safe_extract b0 "play_addr.width" (.int (-1)),
                safe_extract b0 "play_addr.url_list[-1]" (.str "")),
               true)) ∧
    (∀ (idx : Int) (data b0 : Data) (rest : List Data),
      pyIter (safe_extract data "video.bitrateInfo" (.list []))
          = b0 :: rest →
      (∃ b ∈ b0 :: rest, lacksFieldT b) →
      extract_video_download_tiktok idx data
        = .ok ((safe_extract b0 "PlayAddr.Height" (.int (-1)),
                safe_extract b0 "PlayAddr.Width" (.int (-1)),
                safe_extract b0
                  ("PlayAddr.UrlList[" ++ toString idx ++ "]") (.str "")),
               true)) := by
  constructor
  · intro data b0 rest hiter ⟨b, hbmem, hlacks⟩
    have hnone := buildTuplesA_none_of_mem (b0 :: rest) b hbmem
      (parseBitRateA_none_of_lacks b hlacks)
    unfold extract_video_download
    rw [hiter]
    simp only [hnone]
  · intro idx data b0 rest hiter ⟨b, hbmem, hlacks⟩
    have hnone := buildTuplesT_none_of_mem (b0 :: rest) b hbmem
      (parseBitRateT_none_of_lacks b hlacks)
    unfold extract_video_download_tiktok
    rw [hiter]
    simp only [hnone]

/-- Witness for C7: concrete items whose single variant lacks `FPS`
(Source-A) or `Bitrate` (Source-B). -/
theorem c7_quality_degrade_witness :
    (extract_video_download
        (.ns [("video", .ns [("bit_rate", .list
          [.ns [("play_addr", .ns [("height", .int 720),
                                   ("width", .int 1280),
                                   ("url_list", .list [.str "u"])])]]
          )])])
      = .ok ((.int 720, .int 1280, .str "u"), true)) ∧
    (extract_video_download_tiktok 0
        (.ns [("video", .ns [("bitrateInfo", .list
          [.ns [("PlayAddr", .ns [("Height", .int 1080),
                                  ("Width", .int 1920),
                                  ("UrlList", .list [.str "t"])])]]
          )])])
      = .ok ((.int 1080, .int 1920, .str "t"), true)) := by
  constructor
  · have h := c7_quality_degrade.1
      (.ns [("video", .ns [("bit_rate", .list
        [.ns [("play_addr", .ns [("height", .int 720),
                                 ("width", .int 1280),
                                 ("url_list", .list [.str "u"])])]]
        )])])
      (.ns [("play_addr", .ns [("height", .int 720),
                               ("width", .int 1280),
                               ("url_list", .list [.str "u"])])])
      [] rfl
      ⟨.ns [("play_addr", .ns [("height", .int 720),
                               ("width", .int 1280),
                               ("url_list", .list [.str "u"])])],
        List.mem_singleton.mpr rfl, Or.inl rfl⟩
    exact h
  · have h := c7_quality_degrade.2 0
      (.ns [("video", .ns [("bitrateInfo", .list
        [.ns [("PlayAddr", .ns [("Height", .int 1080),
                                ("Width", .int 1920),
                                ("UrlList", .list [.str "t"])])]]
        )])])
      (.ns [("PlayAddr", .ns [("Height", .int 1080),
                              ("Width", .int 1920),
                              ("UrlList", .list [.str "t"])])])
      [] rfl
      ⟨.ns [("PlayAddr", .ns [("Height", .int 1080),
                              ("Width", .int 1920),
                              ("UrlList", .list [.str "t"])])],
        List.mem_singleton.mpr rfl, Or.inl rfl⟩
    exact h

/-! ## Canonical records and the normalization pipeline -/

/-- The canonical per-work record the pipeline builds (the `item` dict of
`__extract_batch`).  Fields whose value comes straight from `safe_extract`
keep the dynamic type `Data`; fields the code always sets from string
constants are `String`.  The source builds the dict incrementally, but every
execution path sets every key, so a structure is faithful; `extra` keeps the
payload value whose `json.dumps` serialization the source stores (only its
selection is observable to the claims, never the JSON text).  `ratio_`
carries the `video.ratio` field. -/
structure Record where
  collection_time : String
  id : Data
  desc : Data
  create_timestamp : Data
  create_time : String
  text_extra : List Data
  type_ : String
  duration : String
  uri : Data
  height : Data
  width : Data
  downloads : Data
  dynamic_cover : Data
  static_cover : Data
  uid : Data
  sec_uid : Data
  unique_id : Data
  signature : Data
  user_age : Data
  nickname : Data
  mark : Data
  music_author : Data
  music_title : Data
  music_url : Data
  digg_count : Data
  comment_count : Data
  collect_count : Data
  share_count : Data
  play_count : Data
  tag : List Data
  extra : Data
  ratio_ : Data
  share_url : String

/-- The record before any extraction stage ran (the `template` copy; only
`collection_time` is meaningful at this point). -/
def blankRecord (collection_time : String) : Record :=
  ⟨collection_time, .null, .null, .null, "", [], "", "", .null, .null, .null,
   .null, .null, .null, .null, .null, .null, .null, .null, .null, .null,
   .null, .null, .null, .null, .null, .null, .null, .null, [], .null, .null,
   ""⟩

/-- The injected collaborators and configuration the extractor receives
(`params.logger` and the observability counters are side-effect-only and
not represented):
* `fmtDate` models `strftime(self.date_format, localtime(ts or None))`;
* `toDate` models `datetime.fromtimestamp(·).date()` as a local calendar
  day number;
* `filterName` models `cleaner.filter_name(raw, default)`;
* `cleanDesc` models `cleaner.clear_spaces(cleaner.filter(·))`;
* `cond` models the injected `condition_filter` hook from
  `custom/function.py` (the shipped default keeps every item, returning
  `True`, and maintains counters no claim observes);
* the three index fields model the `…_TIKTOK_INDEX` configuration
  constants imported from `..custom`, whose definitions are not part of the
  sources under scrutiny. -/
structure Env where
  fmtDate : Data → String
  toDate : Int → Int
  filterName : Data → Data → Data
  cleanDesc : Data → Data
  cond : Record → Bool
  now : String
  imageTiktokIndex : Int
  bitrateInfoTiktokIndex : Int
  videoTiktokIndex : Int

/-- Python `a or b`. -/
def pyOr (a b : Data) : Data := if a.truthy then a else b

/-- `str(x)` as used for f-string interpolation; exact only for the string
and integer payloads that reach the share-link builder. -/
def pyStr : Data → String
  | .str s => s
  | .int n => toString n
  | .bool b => if b then "True" else "False"
  | .null => "None"
  | .list _ => "[...]"
  | .ns _ => "namespace(...)"

/-- `Extractor.__generate_link`: the `match bool(unique_id), type_` dispatch
of the source.  Source-A callers pass `None` (modelled `.null`) for
`unique_id`, Source-B callers pass the extracted handle. -/
def generate_link (type_ : String) (id_ : Data) (unique_id : Data) :
    String :=
  if unique_id.truthy then
    match type_ with
    | "视频" =>
      "https://www.tiktok.com/@" ++ pyStr unique_id ++ "/video/" ++
        pyStr id_
    | "图集" =>
      "https://www.tiktok.com/@" ++ pyStr unique_id ++ "/photo/" ++
        pyStr id_
    | _ => ""
  else
    match type_ with
    | "视频" => "https://www.douyin.com/video/" ++ pyStr id_
    | "图集" => "https://www.douyin.com/note/" ++ pyStr id_
    | "实况" => "https://www.douyin.com/note/" ++ pyStr id_
    | _ => ""

/-- `f"{x:0>2d}"` / `"{:02d}"`. -/
def pad2 (n : Int) : String :=
  let s := toString n
  if s.length < 2 then "0" ++ s else s

/-- `Extractor.time_conversion` (Source-A, milliseconds): Python `//` and
`%` are floor division and modulo. -/
def time_conversion (time_ : Int) : String :=
  let second := Int.fdiv time_ 1000
  pad2 (Int.fdiv second 3600) ++ ":" ++
    pad2 (Int.fdiv (Int.emod second 3600) 60) ++ ":" ++
    pad2 (Int.emod (Int.emod second 3600) 60)

/-- `Extractor.time_conversion_tiktok` (seconds, via `divmod`). -/
def time_conversion_tiktok (seconds : Int) : String :=
  pad2 (Int.fdiv (Int.fdiv seconds 60) 60) ++ ":" ++
    pad2 (Int.emod (Int.fdiv seconds 60) 60) ++ ":" ++
    pad2 (Int.emod seconds 60)

/-- Using a payload value as an integer (`datetime.fromtimestamp`,
`//`, `divmod`): a non-numeric value raises `TypeError`.  (Python floats are
outside the integer payload model.) -/
def pyToIntE (d : Data) : Except PyExc Int :=
  match d.asInt? with
  | some n => .ok n
  | none => .error .typeError

/-- `Extractor.__set_blank_data` (type, zero duration, `-1` dimensions, no
covers — `__extract_cover` with `has=False`). -/
def set_blank_data (r : Record) (type_ : String) : Record :=
  { r with type_ := type_, duration := "00:00:00", uri := .str "",
           height := .int (-1), width := .int (-1),
           dynamic_cover := .str "", static_cover := .str "" }

/-- `Extractor.__classify_slides_item`: a slide with an embedded video
reports that video's selected URL (the last component of the selector
triple), otherwise its own last still URL. -/
def classify_slides_item (i : Data) : Except PyExc Data :=
  if (safe_extract i "video" (.str "")).truthy then do
    let ((_, _, u), _) ← extract_video_download i
    pure u
  else pure (safe_extract i "url_list[-1]" (.str ""))

/-- `Extractor.__extract_image_info` (Source-A): live-photo sets when any
image embeds a video, otherwise plain image sets downloading each still's
last URL candidate. -/
def extract_image_info (r : Record) (images : List Data) :
    Except PyExc Record :=
  if images.any (fun i => (safe_extract i "video" (.str "")).truthy) then do
    let dls ← images.mapM classify_slides_item
    pure { set_blank_data r "实况" with downloads := .list dls }
  else
    pure { set_blank_data r "图集" with
      downloads := .list
        (images.map (fun i => safe_extract i "url_list[-1]" (.str ""))) }

/-- `Extractor.__extract_video_info` (Source-A). -/
def extract_video_info (r : Record) (d : Data) : Except PyExc Record := do
  let ((h, w, dl), _) ← extract_video_download d
  let t ← pyToIntE (safe_extract d "video.duration" (.int 0))
  pure { r with
    type_ := "视频", height := h, width := w, downloads := dl,
    duration := time_conversion t,
    uri := safe_extract d "video.play_addr.uri" (.str ""),
    dynamic_cover := safe_extract d "video.dynamic_cover.url_list[-1]"
      (.str ""),
    static_cover := safe_extract d "video.cover.url_list[0]" (.str "") }

/-- `Extractor.__classifying_detail` (Source-A). -/
def classifying_detail (r : Record) (d : Data) : Except PyExc Record :=
  let images := safe_extract d "images" (.str "")
  if images.truthy then extract_image_info r (pyIter images)
  else extract_video_info r d

/-- `Extractor.__extract_text_extra` (Source-A): hashtag names, falsy ones
dropped. -/
def extract_text_extra (d : Data) : List Data :=
  ((pyIter (safe_extract d "text_extra" (.list []))).map
    (fun i => safe_extract i "hashtag_name" (.str ""))).filter
      (fun t => t.truthy)

/-- `Extractor.__extract_detail_info` (Source-A): id, cleaned description
falling back to the id, native timestamp (`safe_extract` default `""` when
absent or falsy), formatted time, hashtags, classification. -/
def extract_detail_info (env : Env) (r : Record) (d : Data) :
    Except PyExc Record := do
  let id_ := safe_extract d "aweme_id" (.str "")
  let ts := safe_extract d "create_time" (.str "")
  classifying_detail
    { r with id := id_,
             desc := pyOr (env.cleanDesc (safe_extract d "desc" (.str "")))
               id_,
             create_timestamp := ts,
             create_time := env.fmtDate ts,
             text_extra := extract_text_extra d } d

/-- `Extractor.__extract_nickname_info`: in same-author batches the
container-level name and mark are forced; otherwise the cleaned per-item
author nickname is used for both. -/
def extract_nickname_info (env : Env) (same : Bool) (name mark : String)
    (author : Data) : Data × Data :=
  if same then (.str name, .str (if mark != "" then mark else name))
  else
    let n := env.filterName (safe_extract author "nickname" (.str "已注销账号"))
      (.str "无效账号昵称")
    (n, n)

/-- `Extractor.__extract_account_info` (Source-A). -/
def extract_account_info (env : Env) (same : Bool) (name mark : String)
    (r : Record) (d : Data) : Record :=
  let author := safe_extract d "author" (.str "")
  let nm := extract_nickname_info env same name mark author
  { r with uid := safe_extract author "uid" (.str ""),
           sec_uid := safe_extract author "sec_uid" (.str ""),
           unique_id := safe_extract author "unique_id" (.str ""),
           signature := safe_extract author "signature" (.str ""),
           user_age := safe_extract author "user_age" (.int (-1)),
           nickname := nm.1, mark := nm.2 }

/-- `Extractor.__extract_music` (both platforms, selected by the flag). -/
def extract_music (tiktok : Bool) (r : Record) (d : Data) : Record :=
  let md := safe_extract d "music" (.str "")
  if md.truthy then
    if tiktok then
      { r with music_author := safe_extract md "authorName" (.str ""),
               music_title := safe_extract md "title" (.str ""),
               music_url := safe_extract md "playUrl" (.str "") }
    else
      { r with music_author := safe_extract md "author" (.str ""),
               music_title := safe_extract md "title" (.str ""),
               music_url := safe_extract md "play_url.url_list[-1]"
                 (.str "") }
  else
    { r with music_author := .str "", music_title := .str "",
             music_url := .str "" }

/-- `Extractor.__extract_statistics` (Source-A keys). -/
def extract_statistics (r : Record) (d : Data) : Record :=
  let s := safe_extract d "statistics" (.str "")
  { r with digg_count := safe_extract s "digg_count" (.int (-1)),
           comment_count := safe_extract s "comment_count" (.int (-1)),
           collect_count := safe_extract s "collect_count" (.int (-1)),
           share_count := safe_extract s "share_count" (.int (-1)),
           play_count := safe_extract s "play_count" (.int (-1)) }

/-- `Extractor.__extract_tags` (Source-A). -/
def extract_tags (r : Record) (d : Data) : Record :=
  let t := safe_extract d "video_tag" (.str "")
  if !t.truthy then { r with tag := [] }
  else
    { r with tag := ((pyIter t).map
        (fun i => safe_extract i "tag_name" (.str ""))) }

/-- `Extractor.__extract_extra_info` (Source-A): the `anchor_info` payload
selected for serialization, or the empty string. -/
def extract_extra_info (r : Record) (d : Data) : Record :=
  let e := safe_extract d "anchor_info" (.str "")
  { r with extra := if e.truthy then e else .str "" }

/-- `Extractor.__extract_additional_info`: ratio, then the share URL from
the classified type, the id, and — only for Source-B — the author
handle. -/
def extract_additional_info (tiktok : Bool) (r : Record) (d : Data) :
    Record :=
  let r := { r with ratio_ := safe_extract d "video.ratio" (.str "") }
  { r with share_url := (generate_link r.type_ r.id
      (if tiktok then r.unique_id else .null)) }

/-- `Extractor.__extract_batch` (Source-A): the per-item stage sequence. -/
def extract_batch (env : Env) (same : Bool) (name mark : String)
    (d : Data) : Except PyExc Record := do
  let r1 ← extract_detail_info env (blankRecord env.now) d
  let r2 := extract_account_info env same name mark r1 d
  let r3 := extract_music false r2 d
  let r4 := extract_statistics r3 d
  let r5 := extract_tags r4 d
  let r6 := extract_extra_info r5 d
  pure (extract_additional_info false r6 d)

/-- `Extractor.__extract_image_info_tiktok`: always an image set, per-still
URL at the configured index. -/
def extract_image_info_tiktok (env : Env) (r : Record)
    (images : List Data) : Record :=
  { set_blank_data r "图集" with
    downloads := (.list (images.map (fun i => safe_extract i
      ("imageURL.urlList[" ++ toString env.imageTiktokIndex ++ "]")
      (.str "")))) }

/-- `Extractor.__extract_video_info_tiktok`. -/
def extract_video_info_tiktok (env : Env) (r : Record) (d : Data) :
    Except PyExc Record := do
  let ((h, w, dl), _) ← extract_video_download_tiktok env.videoTiktokIndex d
  let t ← pyToIntE (safe_extract d "video.duration" (.int 0))
  pure { r with
    type_ := "视频", height := h, width := w, downloads := dl,
    duration := time_conversion_tiktok t,
    uri := (safe_extract d
      ("video.bitrateInfo[" ++ toString env.bitrateInfoTiktokIndex ++
        "].PlayAddr.Uri") (.str "")),
    dynamic_cover := safe_extract d "video.dynamicCover" (.str ""),
    static_cover := safe_extract d "video.cover" (.str "") }

/-- `Extractor.__classifying_detail_tiktok`. -/
def classifying_detail_tiktok (env : Env) (r : Record) (d : Data) :
    Except PyExc Record :=
  let images := safe_extract d "imagePost.images" (.str "")
  if images.truthy then
    pure (extract_image_info_tiktok env r (pyIter images))
  else extract_video_info_tiktok env r d

/-- `Extractor.__extract_text_extra_tiktok`. -/
def extract_text_extra_tiktok (d : Data) : List Data :=
  ((pyIter (safe_extract d "textExtra" (.list []))).map
    (fun i => safe_extract i "hashtagName" (.str ""))).filter
      (fun t => t.truthy)

/-- `Extractor.__extract_detail_info_tiktok`. -/
def extract_detail_info_tiktok (env : Env) (r : Record) (d : Data) :
    Except PyExc Record := do
  let id_ := safe_extract d "id" (.str "")
  let ts := safe_extract d "createTime" (.str "")
  classifying_detail_tiktok env
    { r with id := id_,
             desc := pyOr (env.cleanDesc (safe_extract d "desc" (.str "")))
               id_,
             create_timestamp := ts,
             create_time := env.fmtDate ts,
             text_extra := extract_text_extra_tiktok d } d

/-- `Extractor.__extract_account_info_tiktok`. -/
def extract_account_info_tiktok (env : Env) (same : Bool)
    (name mark : String) (r : Record) (d : Data) : Record :=
  let author := safe_extract d "author" (.str "")
  let nm := extract_nickname_info env same name mark author
  { r with uid := safe_extract author "id" (.str ""),
           sec_uid := safe_extract author "secUid" (.str ""),
           unique_id := safe_extract author "uniqueId" (.str ""),
           signature := safe_extract author "signature" (.str ""),
           user_age := .int (-1),
           nickname := nm.1, mark := nm.2 }

/-- `Extractor.__extract_statistics_tiktok` (TikTok keys stored into the
canonical Source-A slots, in the fixed order). -/
def extract_statistics_tiktok (r : Record) (d : Data) : Record :=
  let s := safe_extract d "stats" (.str "")
  { r with digg_count := safe_extract s "diggCount" (.int (-1)),
           comment_count := safe_extract s "commentCount" (.int (-1)),
           collect_count := safe_extract s "collectCount" (.int (-1)),
           share_count := safe_extract s "shareCount" (.int (-1)),
           play_count := safe_extract s "playCount" (.int (-1)) }

/-- `Extractor.__extract_tags_tiktok`. -/
def extract_tags_tiktok (r : Record) (d : Data) : Record :=
  let t := safe_extract d "textExtra" (.str "")
  if !t.truthy then { r with tag := [] }
  else
    { r with tag := ((pyIter t).map
        (fun i => safe_extract i "hashtagName" (.str ""))) }

/-- `Extractor.__extract_batch_tiktok`: the Source-B per-item stage
sequence (`extra` is always empty, the handle is threaded into the share
URL). -/
def extract_batch_tiktok (env : Env) (same : Bool) (name mark : String)
    (d : Data) : Except PyExc Record := do
  let r1 ← extract_detail_info_tiktok env (blankRecord env.now) d
  let r2 := extract_account_info_tiktok env same name mark r1 d
  let r3 := extract_music true r2 d
  let r4 := extract_statistics_tiktok r3 d
  let r5 := extract_tags_tiktok r4 d
  let r6 := { r5 with extra := .str "" }
  pure (extract_additional_info true r6 d)

/-- `Extractor.generate_data_object`: `depth_conversion` maps every `dict`
node to the `SimpleNamespace` with the same fields.  Under the conflated
representation (both shapes are `Data.ns`) it is the identity. -/
def generate_data_object (d : Data) : Data := d

/-- `Extractor.__platform_classify_detail`: convert and extract every
payload item in input order; an exception in any item aborts the whole
run. -/
def platform_classify_detail (env : Env) (tiktok same : Bool)
    (name mark : String) (payloads : List Data) :
    Except PyExc (List Record) :=
  payloads.mapM (fun p =>
    if tiktok then extract_batch_tiktok env same name mark
      (generate_data_object p)
    else extract_batch env same name mark (generate_data_object p))

/-- `Extractor.__clean_extract_data` with `detail_necessary_keys = "id"`:
keep the items whose `id` is truthy. -/
def clean_extract_data (rs : List Record) : List Record :=
  rs.filter (fun r => r.id.truthy)

/-- `Extractor.__date_filter`: per item, in order,
`datetime.fromtimestamp(item["create_timestamp"]).date()` — which raises
`TypeError` on a non-numeric timestamp — then the inclusive range check. -/
def date_filter (env : Env) (earliest latest : Int) :
    List Record → Except PyExc (List Record)
  | [] => .ok []
  | r :: rest => do
    let t ← pyToIntE r.create_timestamp
    let tail ← date_filter env earliest latest rest
    if earliest ≤ env.toDate t ∧ env.toDate t ≤ latest then
      pure (r :: tail)
    else pure tail

/-- `Extractor.__condition_filter`: the injected hook decides membership of
the in-memory list. -/
def condition_filter_stage (env : Env) (rs : List Record) : List Record :=
  rs.filter env.cond

/-- `Extractor.__record_data`: one sequential awaited `recorder.save(row)`
per record, in list order; the row is `__extract_values`' projection of the
record in the recorder's fixed key order, modelled by the record itself.
The function value is the sequence of saved rows. -/
def record_data (rs : List Record) : List Record := rs

/-- What one pipeline run leaves behind: the in-memory return value and the
sequence of persisted rows. -/
structure RunResult where
  returned : List Record
  persisted : List Record

/-- `Extractor.__batch`: extract → drop items without id → log → date
filter → custom filter → persist → return. -/
def batch_run (env : Env) (tiktok : Bool) (name mark : String)
    (earliest latest : Int) (same : Bool) (payloads : List Data) :
    Except PyExc RunResult := do
  let extracted ← platform_classify_detail env tiktok same name mark
    payloads
  let cleaned := clean_extract_data extracted
  let dated ← date_filter env earliest latest cleaned
  let final := condition_filter_stage env dated
  pure ⟨final, record_data final⟩

/-- `Extractor.__detail`: extract → drop items without id → log → persist →
custom filter → return. -/
def detail_run (env : Env) (tiktok : Bool) (payloads : List Data) :
    Except PyExc RunResult := do
  let extracted ← platform_classify_detail env tiktok false "" "" payloads
  let cleaned := clean_extract_data extracted
  let persisted := record_data cleaned
  pure ⟨condition_filter_stage env cleaned, persisted⟩

/-- Claim C10.  The share-URL builder dispatches on the truthiness of the
handle, not on the platform flag: a falsy handle selects the Source-A
(`douyin.com`) formats even when the caller is the Source-B adapter, so a
Source-B video with missing `unique_id` yields `douyin.com/video/{id}`,
while the live-photo type with a truthy handle matches no Source-B format
and yields the empty string; the adapter wiring passes the item handle for
Source-B and `None` for Source-A. -/
theorem c10_share_link_dispatch :
    (∀ (t : String) (id_ u : Data), u.truthy = false →
      generate_link t id_ u = generate_link t id_ .null) ∧
    (generate_link "视频" (.str "123") (.str "")
      = "https://www.douyin.com/video/123") ∧
    (generate_link "实况" (.str "123") (.str "user") = "") ∧
    (∀ (r : Record) (d : Data),
      (extract_additional_info true r d).share_url
        = generate_link r.type_ r.id r.unique_id) ∧
    (∀ (r : Record) (d : Data),
      (extract_additional_info false r d).share_url
        = generate_link r.type_ r.id .null) ∧
    ((extract_additional_info true
        { blankRecord "" with type_ := "视频", id := .str "123",
                              unique_id := .str "" } .null).share_url
      = "https://www.douyin.com/video/123") := by
  refine ⟨?_, rfl, rfl, ?_, ?_, ?_⟩
  · intro t id_ u hu
    unfold generate_link
    rw [hu]
    rfl
  · intro r d
    rfl
  · intro r d
    rfl
  · rfl

/-- Witness for C10: the dispatch conjunct applied to a falsy Source-B
handle. -/
theorem c10_share_link_dispatch_witness :
    generate_link "视频" (.str "9") (.str "")
      = generate_link "视频" (.str "9") .null :=
  c10_share_link_dispatch.1 "视频" (.str "9") (.str "") rfl

/-- Inversion of a successful `Except` bind. -/
theorem except_bind_ok {ε α β : Type} (x : Except ε α) (f : α → Except ε β)
    (b : β) (h : x >>= f = .ok b) : ∃ a, x = .ok a ∧ f a = .ok b := by
  cases x with
  | ok a => exact ⟨a, rfl, h⟩
  | error e => simp [Bind.bind, Except.bind] at h

/-- The date filter only ever removes records. -/
theorem date_filter_mem (env : Env) (e l : Int) :
    ∀ (rs out : List Record), date_filter env e l rs = .ok out →
      ∀ r ∈ out, r ∈ rs := by
  intro rs
  induction rs with
  | nil =>
    intro out h r hr
    cases h
    cases hr
  | cons x xs ih =>
    intro out h r hr
    unfold date_filter at h
    obtain ⟨t, ht, h2⟩ := except_bind_ok _ _ _ h
    obtain ⟨tail, htail, h3⟩ := except_bind_ok _ _ _ h2
    split at h3
    · cases h3
      rcases List.mem_cons.mp hr with rfl | hm
      · exact List.mem_cons_self _ _
      · exact List.mem_cons_of_mem _ (ih _ htail r hm)
    · cases h3
      exact List.mem_cons_of_mem _ (ih _ htail r hr)

/-- Claim C1.  In both pipeline modes, every record in the returned list —
and every persisted row — has a truthy `id`: `__clean_extract_data` runs
before logging, date filtering, custom filtering and persistence, and those
later stages only remove records. -/
theorem c1_output_ids_nonempty :
    (∀ (env : Env) (tiktok : Bool) (name mark : String)
        (earliest latest : Int) (same : Bool) (payloads : List Data)
        (res : RunResult),
      batch_run env tiktok name mark earliest latest same payloads
          = .ok res →
      (∀ r ∈ res.returned, r.id.truthy = true) ∧
      (∀ r ∈ res.persisted, r.id.truthy = true)) ∧
    (∀ (env : Env) (tiktok : Bool) (payloads : List Data)
        (res : RunResult),
      detail_run env tiktok payloads = .ok res →
      (∀ r ∈ res.returned, r.id.truthy = true) ∧
      (∀ r ∈ res.persisted, r.id.truthy = true)) := by
  constructor
  · intro env tiktok name mark e l same payloads res h
    unfold batch_run at h
    obtain ⟨ex, hex, h2⟩ := except_bind_ok _ _ _ h
    obtain ⟨dated, hdate, h3⟩ := except_bind_ok _ _ _ h2
    cases h3
    have hmem : ∀ r ∈ condition_filter_stage env dated,
        r.id.truthy = true := by
      intro r hr
      have h4 : r ∈ dated := (List.mem_filter.mp hr).1
      have h5 : r ∈ clean_extract_data ex := date_filter_mem env e l _ _
        hdate r h4
      exact (List.mem_filter.mp h5).2
    exact ⟨hmem, hmem⟩
  · intro env tiktok payloads res h
    unfold detail_run at h
    obtain ⟨ex, hex, h2⟩ := except_bind_ok _ _ _ h
    cases h2
    constructor
    · intro r hr
      have h4 : r ∈ clean_extract_data ex := (List.mem_filter.mp hr).1
      exact (List.mem_filter.mp h4).2
    · intro r hr
      exact (List.mem_filter.mp hr).2

/-- A concrete environment for the pipeline witnesses: the date of a
timestamp is the timestamp itself, the cleaner collaborators are
identities, the custom filter keeps everything. -/
def envC : Env :=
  ⟨fun _ => "", fun t => t, fun a _ => a, fun d => d, fun _ => true, "",
   0, 0, 0⟩

/-- Unpack a pipeline run that is known to succeed. -/
def runOr (x : Except PyExc RunResult) : RunResult :=
  match x with
  | .ok r => r
  | .error _ => ⟨[], []⟩

/-- Unpack an extraction stage that is known to succeed. -/
def listOr (x : Except PyExc (List Record)) : List Record :=
  match x with
  | .ok l => l
  | .error _ => []

/-- Concrete payloads for the C1 witness: one full item and one with no
`aweme_id` (the latter is dropped by the id check). -/
def c1Payloads : List Data :=
  [.ns [("aweme_id", .str "1"), ("create_time", .int 5)],
   .ns [("create_time", .int 6)]]

/-- Witness for C1: both mode conjuncts applied to a concrete run. -/
theorem c1_output_ids_nonempty_witness :
    ((∀ r ∈ (runOr (batch_run envC false "n" "m" 0 10 true
        c1Payloads)).returned, r.id.truthy = true) ∧
      (∀ r ∈ (runOr (batch_run envC false "n" "m" 0 10 true
        c1Payloads)).persisted, r.id.truthy = true)) ∧
    ((∀ r ∈ (runOr (detail_run envC false c1Payloads)).returned,
        r.id.truthy = true) ∧
      (∀ r ∈ (runOr (detail_run envC false c1Payloads)).persisted,
        r.id.truthy = true)) :=
  ⟨c1_output_ids_nonempty.1 envC false "n" "m" 0 10 true c1Payloads
      (runOr (batch_run envC false "n" "m" 0 10 true c1Payloads)) rfl,
   c1_output_ids_nonempty.2 envC false c1Payloads
      (runOr (detail_run envC false c1Payloads)) rfl⟩

/-- The pure range predicate of the date filter, defined for records whose
timestamp is numeric. -/
def intRange (env : Env) (e l : Int) (r : Record) : Bool :=
  match r.create_timestamp.asInt? with
  | some n => decide (e ≤ env.toDate n) && decide (env.toDate n ≤ l)
  | none => false

/-- On all-numeric timestamps the date filter is the pure inclusive-range
filter. -/
theorem date_filter_ok_of_numeric (env : Env) (e l : Int) :
    ∀ rs : List Record,
      (∀ r ∈ rs, (r.create_timestamp.asInt?).isSome = true) →
      date_filter env e l rs = .ok (rs.filter (intRange env e l)) := by
  intro rs
  induction rs with
  | nil => intro _; rfl
  | cons x xs ih =>
    intro h
    obtain ⟨n, hn⟩ := Option.isSome_iff_exists.mp
      (h x (List.mem_cons_self _ _))
    have hxs := ih (fun r hr => h r (List.mem_cons_of_mem _ hr))
    unfold date_filter
    rw [List.filter_cons]
    simp only [pyToIntE, hn, intRange, hxs, Bind.bind, Except.bind]
    by_cases hc : e ≤ env.toDate n ∧ env.toDate n ≤ l
    · simp [hc, Pure.pure, Except.pure]
    · simp [hc, Pure.pure, Except.pure]

/-- A single record with a non-numeric timestamp (in particular the
`safe_extract` default `""` produced by a zero or missing native
timestamp field) makes the date filter raise `TypeError`. -/
theorem date_filter_error_of_bad (env : Env) (e l : Int) :
    ∀ rs : List Record,
      (∃ r ∈ rs, r.create_timestamp.asInt? = none) →
      date_filter env e l rs = .error .typeError := by
  intro rs
  induction rs with
  | nil => rintro ⟨r, hr, _⟩; cases hr
  | cons x xs ih =>
    rintro ⟨r, hr, hnone⟩
    unfold date_filter
    rcases List.mem_cons.mp hr with rfl | hm
    · simp [pyToIntE, hnone, Bind.bind, Except.bind]
    · cases hx2 : x.create_timestamp.asInt? with
      | none => simp [pyToIntE, hx2, Bind.bind, Except.bind]
      | some n =>
        simp [pyToIntE, hx2, Bind.bind, Except.bind, ih ⟨r, hm, hnone⟩]

/-- Claim C4 (amended).  A batch run tolerates items only as long as every
id-surviving item carries a numeric timestamp: then the run succeeds and
each out-of-range item fails the inclusive range check alone, the rest
being filtered, persisted and returned (first conjunct).  But an
id-surviving item whose native timestamp field is zero or missing reaches
`__date_filter` as the `safe_extract` default `""`, on which
`datetime.fromtimestamp` raises `TypeError`, aborting the whole batch
(second conjunct) — contrary to the claim, such an item is not treated as
epoch-start. -/
theorem c4_batch_date_tolerance :
    (∀ (env : Env) (tiktok : Bool) (name mark : String) (e l : Int)
        (same : Bool) (payloads : List Data) (ex : List Record),
      platform_classify_detail env tiktok same name mark payloads
          = .ok ex →
      (∀ r ∈ clean_extract_data ex,
        (r.create_timestamp.asInt?).isSome = true) →
      batch_run env tiktok name mark e l same payloads
        = .ok ⟨condition_filter_stage env
            ((clean_extract_data ex).filter (intRange env e l)),
          record_data (condition_filter_stage env
            ((clean_extract_data ex).filter (intRange env e l)))⟩) ∧
    (∀ (env : Env) (tiktok : Bool) (name mark : String) (e l : Int)
        (same : Bool) (payloads : List Data) (ex : List Record),
      platform_classify_detail env tiktok same name mark payloads
          = .ok ex →
      (∃ r ∈ clean_extract_data ex, r.create_timestamp.asInt? = none) →
      batch_run env tiktok name mark e l same payloads
        = .error .typeError) := by
  constructor
  · intro env tiktok name mark e l same payloads ex hex hnum
    unfold batch_run
    rw [hex]
    simp only [Bind.bind, Except.bind]
    rw [date_filter_ok_of_numeric env e l _ hnum]
    rfl
  · intro env tiktok name mark e l same payloads ex hex hbad
    unfold batch_run
    rw [hex]
    simp only [Bind.bind, Except.bind]
    rw [date_filter_error_of_bad env e l _ hbad]

/-- Concrete payloads refuting C4 as stated: the second item survives the
id check but has no native timestamp field. -/
def c4Payloads : List Data :=
  [.ns [("aweme_id", .str "1"), ("create_time", .int 5)],
   .ns [("aweme_id", .str "2")]]

/-- Counterexample to C4 as stated: on `c4Payloads` both items pass the id
check (their ids extract to `"1"` and `"2"`), yet the whole batch run
aborts with `TypeError` — the item with the missing timestamp is not
treated as epoch-start, and the well-formed first item is not returned
either. -/
theorem c4_counterexample :
    batch_run envC false "n" "m" 0 10 true c4Payloads
        = .error .typeError ∧
    (listOr (platform_classify_detail envC false true "n" "m" c4Payloads)
      |> clean_extract_data
      |>.map (fun r => pyStr r.id)) = ["1", "2"] :=
  ⟨rfl, rfl⟩

/-- Witness for the amended C4: the tolerant conjunct applied to an
all-numeric batch (one item in range, one out of range), the aborting
conjunct applied to `c4Payloads`. -/
theorem c4_batch_date_tolerance_witness :
    (batch_run envC false "n" "m" 0 10 true
        [.ns [("aweme_id", .str "1"), ("create_time", .int 5)],
         .ns [("aweme_id", .str "2"), ("create_time", .int 99)]]
      = .ok ⟨condition_filter_stage envC
          ((clean_extract_data (listOr (platform_classify_detail envC false
            true "n" "m"
            [.ns [("aweme_id", .str "1"), ("create_time", .int 5)],
             .ns [("aweme_id", .str "2"), ("create_time", .int 99)]]))).filter
            (intRange envC 0 10)),
        record_data (condition_filter_stage envC
          ((clean_extract_data (listOr (platform_classify_detail envC false
            true "n" "m"
            [.ns [("aweme_id", .str "1"), ("create_time", .int 5)],
             .ns [("aweme_id", .str "2"), ("create_time", .int 99)]]))).filter
            (intRange envC 0 10)))⟩) ∧
    batch_run envC false "n" "m" 0 10 true c4Payloads
      = .error .typeError :=
  ⟨c4_batch_date_tolerance.1 envC false "n" "m" 0 10 true
      [.ns [("aweme_id", .str "1"), ("create_time", .int 5)],
       .ns [("aweme_id", .str "2"), ("create_time", .int 99)]]
      (listOr (platform_classify_detail envC false true "n" "m"
        [.ns [("aweme_id", .str "1"), ("create_time", .int 5)],
         .ns [("aweme_id", .str "2"), ("create_time", .int 99)]]))
      rfl (by decide),
   c4_batch_date_tolerance.2 envC false "n" "m" 0 10 true c4Payloads
      (listOr (platform_classify_detail envC false true "n" "m"
        c4Payloads))
      rfl ⟨(clean_extract_data (listOr (platform_classify_detail envC false
          true "n" "m" c4Payloads))).get ⟨1, by decide⟩,
        List.get_mem _ 1 (by decide), by decide⟩⟩

/-- Claim C5 (amended).  In batch mode the custom filter runs *before*
persistence, so the persisted rows are exactly the returned records (the
exclusion removes an item from the persisted set too).  Detail mode is the
persist-before-filter side: every id-surviving record is persisted once, in
extraction order, and the returned list is the custom-filtered sublist of
the persisted rows. -/
theorem c5_persist_filter_order :
    (∀ (env : Env) (tiktok : Bool) (name mark : String) (e l : Int)
        (same : Bool) (payloads : List Data) (res : RunResult),
      batch_run env tiktok name mark e l same payloads = .ok res →
      res.persisted = res.returned) ∧
    (∀ (env : Env) (tiktok : Bool) (payloads : List Data)
        (res : RunResult),
      detail_run env tiktok payloads = .ok res →
      ∃ ex, platform_classify_detail env tiktok false "" "" payloads
          = .ok ex ∧
        res.persisted = record_data (clean_extract_data ex) ∧
        res.returned = res.persisted.filter env.cond ∧
        res.returned.Sublist res.persisted) := by
  constructor
  · intro env tiktok name mark e l same payloads res h
    unfold batch_run at h
    obtain ⟨ex, hex, h2⟩ := except_bind_ok _ _ _ h
    obtain ⟨dated, hdate, h3⟩ := except_bind_ok _ _ _ h2
    cases h3
    rfl
  · intro env tiktok payloads res h
    unfold detail_run at h
    obtain ⟨ex, hex, h2⟩ := except_bind_ok _ _ _ h
    cases h2
    exact ⟨ex, hex, rfl, rfl, List.filter_sublist _⟩

/-- The environment of the C5 counterexample: a custom filter that excludes
the record whose id is `"2"` (the hook is caller-injected configuration;
the shipped default keeps everything, under which the claim is vacuous). -/
def envCondC : Env :=
  { envC with cond := fun r => pyStr r.id != "2" }

/-- Payloads for the C5 counterexample: two well-formed in-range items. -/
def c5Payloads : List Data :=
  [.ns [("aweme_id", .str "1"), ("create_time", .int 5)],
   .ns [("aweme_id", .str "2"), ("create_time", .int 6)]]

/-- The records that survive the id check and the date filter in that batch
run — the "surviving items" of the claim. -/
def c5Mid : List Record :=
  match date_filter envCondC 0 10 (clean_extract_data
    (listOr (platform_classify_detail envCondC false true "n" "m"
      c5Payloads))) with
  | .ok dated => dated
  | .error _ => []

/-- The rows that batch run actually persists. -/
def c5Persisted : List Record :=
  (runOr (batch_run envCondC false "n" "m" 0 10 true c5Payloads)).persisted

/-- Counterexample to C5 as stated: in batch mode the item with id `"2"`
survives extraction, the id check and the date filter, yet is *not*
persisted — the custom filter's exclusion is applied before
`__record_data`, so it does not affect only the in-memory return value
and the persisted set is not a superset of the surviving set. -/
theorem c5_counterexample :
    (c5Mid.map (fun r => pyStr r.id)) = ["1", "2"] ∧
    (c5Persisted.map (fun r => pyStr r.id)) = ["1"] :=
  ⟨rfl, rfl⟩

/-- Witness for the amended C5: both conjuncts applied to concrete runs. -/
theorem c5_persist_filter_order_witness :
    ((runOr (batch_run envCondC false "n" "m" 0 10 true
        c5Payloads)).persisted
      = (runOr (batch_run envCondC false "n" "m" 0 10 true
        c5Payloads)).returned) ∧
    (∃ ex, platform_classify_detail envCondC false false "" "" c5Payloads
        = .ok ex ∧
      (runOr (detail_run envCondC false c5Payloads)).persisted
          = record_data (clean_extract_data ex) ∧
      (runOr (detail_run envCondC false c5Payloads)).returned
          = (runOr (detail_run envCondC false c5Payloads)).persisted.filter
            envCondC.cond ∧
      (runOr (detail_run envCondC false c5Payloads)).returned.Sublist
        (runOr (detail_run envCondC false c5Payloads)).persisted) :=
  ⟨c5_persist_filter_order.1 envCondC false "n" "m" 0 10 true c5Payloads
      (runOr (batch_run envCondC false "n" "m" 0 10 true c5Payloads)) rfl,
   c5_persist_filter_order.2 envCondC false c5Payloads
      (runOr (detail_run envCondC false c5Payloads)) rfl⟩


/-! ## Raw-source date filter and identity preprocessing -/

/-- A raw payload dictionary (`dict`), as handled before
`generate_data_object`. -/
abbrev PyDict := List (String × Data)

/-- `item.get(key, dflt)`. -/
def dictGet (d : PyDict) (k : String) (dflt : Data) : Data :=
  (d.lookup k).getD dflt

/-- `Extractor.__source_date_filter`: per raw item, in order — an item with
a missing or falsy timestamp field is kept unconditionally; otherwise
`datetime.fromtimestamp` (raising `TypeError` on a non-numeric value) and
the inclusive range check decide. -/
def source_date_filter_key (env : Env) (key : String)
    (earliest latest : Int) : List PyDict → Except PyExc (List PyDict)
  | [] => .ok []
  | item :: rest =>
    let ct := dictGet item key (.int 0)
    if ct.truthy = false then do
      let tail ← source_date_filter_key env key earliest latest rest
      pure (item :: tail)
    else do
      let t ← pyToIntE ct
      let tail ← source_date_filter_key env key earliest latest rest
      if earliest ≤ env.toDate t ∧ env.toDate t ≤ latest then
        pure (item :: tail)
      else pure tail

/-- `Extractor.source_date_filter`: the platform dispatch picks the native
timestamp field name (`createTime` for Source-B, the default
`create_time` for Source-A). -/
def source_date_filter (env : Env) (tiktok : Bool) (earliest latest : Int)
    (data : List PyDict) : Except PyExc (List PyDict) :=
  if tiktok then
    source_date_filter_key env "createTime" earliest latest data
  else source_date_filter_key env "create_time" earliest latest data

/-- The pure keep-predicate of the raw-source date filter. -/
def sourceKeep (env : Env) (key : String) (e l : Int) (item : PyDict) :
    Bool :=
  let ct := dictGet item key (.int 0)
  if ct.truthy = false then true
  else
    match ct.asInt? with
    | some n => decide (e ≤ env.toDate n) && decide (env.toDate n ≤ l)
    | none => false

/-- Claim C8.  On raw payloads whose truthy timestamps are numeric, the
raw-source date filter keeps exactly the items whose timestamp field is
missing or falsy (never dropped) or whose converted calendar date lies in
the inclusive range; the platform flag only selects the native field name;
and both boundary dates are inclusive (concrete conjuncts, with the date
conversion fixed to the identity). -/
theorem c8_source_date_filter :
    (∀ (env : Env) (key : String) (e l : Int) (data : List PyDict),
      (∀ item ∈ data, (dictGet item key (.int 0)).truthy = true →
        ((dictGet item key (.int 0)).asInt?).isSome = true) →
      source_date_filter_key env key e l data
        = .ok (data.filter (sourceKeep env key e l))) ∧
    (∀ (env : Env) (e l : Int) (data : List PyDict),
      source_date_filter env true e l data
        = source_date_filter_key env "createTime" e l data) ∧
    (∀ (env : Env) (e l : Int) (data : List PyDict),
      source_date_filter env false e l data
        = source_date_filter_key env "create_time" e l data) ∧
    (source_date_filter envC false 1 15 [[("create_time", .int 15)]]
      = .ok [[("create_time", .int 15)]]) ∧
    (source_date_filter envC false 15 30 [[("create_time", .int 15)]]
      = .ok [[("create_time", .int 15)]]) ∧
    (source_date_filter envC false 16 30 [[("create_time", .int 15)]]
      = .ok []) ∧
    (source_date_filter envC false 16 30 [[]] = .ok [[]]) ∧
    (source_date_filter envC false 16 30 [[("create_time", .int 0)]]
      = .ok [[("create_time", .int 0)]]) := by
  refine ⟨?_, fun env e l data => rfl, fun env e l data => rfl,
    rfl, rfl, rfl, rfl, rfl⟩
  intro env key e l data
  induction data with
  | nil => intro _; rfl
  | cons item rest ih =>
    intro h
    have hrest := ih (fun i hi => h i (List.mem_cons_of_mem _ hi))
    unfold source_date_filter_key
    rw [List.filter_cons]
    by_cases ht : (dictGet item key (.int 0)).truthy = false
    · simp only [ht, hrest, Bind.bind, Except.bind, sourceKeep]
      simp [ht, Pure.pure, Except.pure]
    · have ht' : (dictGet item key (.int 0)).truthy = true := by
        cases hb : (dictGet item key (.int 0)).truthy
        · exact absurd hb ht
        · rfl
      obtain ⟨n, hn⟩ := Option.isSome_iff_exists.mp
        (h item (List.mem_cons_self _ _) ht')
      simp only [ht', pyToIntE, hn, hrest, Bind.bind, Except.bind,
        sourceKeep]
      by_cases hc : e ≤ env.toDate n ∧ env.toDate n ≤ l
      · simp [hc, Pure.pure, Except.pure]
      · simp [hc, Pure.pure, Except.pure]

/-- Witness for C8: the general conjunct applied at a concrete list with
one missing-field item, one falsy item and one numeric item. -/
theorem c8_source_date_filter_witness :
    source_date_filter_key envC "create_time" 1 10
        [[], [("create_time", .int 0)], [("create_time", .int 5)],
         [("create_time", .int 77)]]
      = .ok ([[], [("create_time", .int 0)], [("create_time", .int 5)],
          [("create_time", .int 77)]].filter
        (sourceKeep envC "create_time" 1 10)) :=
  c8_source_date_filter.1 envC "create_time" 1 10
    [[], [("create_time", .int 0)], [("create_time", .int 5)],
     [("create_time", .int 77)]]
    (by decide)

/-- `Extractor.get_user_info`: the three account fields read with
`data[...]`; `KeyError`/`TypeError` are caught and yield the empty dict
(modelled `none`), after an error log. -/
def get_user_info (d : PyDict) : Option (Data × Data × Data) :=
  match d.lookup "nickname", d.lookup "sec_uid", d.lookup "uid" with
  | some n, some s, some u => some (n, s, u)
  | _, _, _ => none

/-- Subscripting a nested raw value (`data["user"]["nickname"]`): a
missing key raises `KeyError`, a non-dict raises `TypeError`; both are
caught by the caller, so `Option` suffices. -/
def pyDictSub (v : Data) (k : String) : Option Data :=
  match v with
  | .ns fields => fields.lookup k
  | _ => none

/-- `Extractor.get_user_info_tiktok`. -/
def get_user_info_tiktok (d : PyDict) : Option (Data × Data × Data) := do
  let user ← d.lookup "user"
  let n ← pyDictSub user "nickname"
  let s ← pyDictSub user "secUid"
  let u ← pyDictSub user "id"
  pure (n, s, u)

/-- Python `==` between the caller's string identifier and
`info.get("sec_uid")`: equal only when the extracted value is the same
string; comparing with `None` (missing) or a non-string value is `False`,
never an error. -/
def pyEqStr (s : String) : Option Data → Bool
  | some (.str t) => s == t
  | _ => false

/-- The `sec_uid` the single-profile branch extracts
(`info.get("sec_uid")`). -/
def extracted_sec_uid (tiktok : Bool) (d : PyDict) : Option Data :=
  (if tiktok then get_user_info_tiktok d else get_user_info d).map
    (fun i => i.2.1)

/-- `DownloaderError`. -/
inductive DLError where
  | downloaderError : DLError
deriving DecidableEq

/-- `str.strip()` on the cleaner's string output. -/
def pyStrip : Data → Data
  | .str s => .str s.trim
  | d => d

/-- `Extractor.__select_item`: scan the candidate list in order for the
first element whose mapped field equals the requested identifier;
exhaustion raises `DownloaderError` (modelled by `none`). -/
def select_item (user_id : String) (key : String) :
    List PyDict → Option Data
  | [] => none
  | item :: rest =>
    let obj := generate_data_object (.ns item)
    if pyEqStr user_id (some (safe_extract obj key (.str ""))) then
      some obj
    else select_item user_id key rest

/-- `Extractor.preprocessing_data`.  Dict input: extract the profile
triple, abort with the empty triple when the extracted `sec_uid` does not
equal the caller identifier (also when extraction failed), otherwise clean
the name and derive the mark.  List input: only mode `"post"` is
implemented — select the matching candidate and build `(id, name, mark)`
via the per-platform key table (`__extract_pretreatment_data`); no match,
or any other mode, raises `DownloaderError`.  The function never touches
the recorder. -/
def preprocessing_data (env : Env) (tiktok : Bool) (mode : String)
    (mark : String) (user_id : String) :
    PyDict ⊕ List PyDict → Except DLError (Data × Data × Data)
  | .inl d =>
    if pyEqStr user_id (extracted_sec_uid tiktok d) = false then
      .ok (.str "", .str "", .str "")
    else
      match (if tiktok then get_user_info_tiktok d
             else get_user_info d) with
      | some (n, _, u) =>
        let name := env.filterName n u
        .ok (u, name, env.filterName (.str mark) name)
      | none => .ok (.str "", .str "", .str "")
  | .inr data =>
    match mode with
    | "post" =>
      match select_item user_id
          (if tiktok then "author.secUid" else "author.sec_uid") data with
      | some item =>
        let id_ := safe_extract item
          (if tiktok then "author.id" else "author.uid") (.str "")
        let name := env.filterName
          (safe_extract item "author.nickname" id_) (.str "")
        .ok (id_, pyStrip name,
          pyStrip (env.filterName (.str mark) name))
      | none => .error .downloaderError
    | _ => .error .downloaderError

/-- Claim C9.  When the extracted `sec_uid` of a single profile does not
equal the caller's expected identifier (in Python's `==` sense, so also
when extraction failed), preprocessing logs and returns the empty triple —
it neither raises (`.ok`) nor persists anything (the function has no
access to the recorder); concretely, extracted `"X"` against expected
`"Y"` gives the empty triple. -/
theorem c9_identity_mismatch :
    (∀ (env : Env) (tiktok : Bool) (mode mark user_id : String)
        (d : PyDict),
      pyEqStr user_id (extracted_sec_uid tiktok d) = false →
      preprocessing_data env tiktok mode mark user_id (.inl d)
        = .ok (.str "", .str "", .str "")) ∧
    (preprocessing_data envC false "post" "" "Y"
        (.inl [("nickname", .str "n"), ("sec_uid", .str "X"),
               ("uid", .str "1")])
      = .ok (.str "", .str "", .str "")) := by
  constructor
  · intro env tiktok mode mark user_id d h
    unfold preprocessing_data
    dsimp only
    rw [if_pos h]
  · rfl

/-- Witness for C9: the mismatch conjunct applied at the `"X"`/`"Y"`
profile. -/
theorem c9_identity_mismatch_witness :
    preprocessing_data envC false "post" "m" "Y"
        (.inl [("nickname", .str "n"), ("sec_uid", .str "X"),
               ("uid", .str "1")])
      = .ok (.str "", .str "", .str "") :=
  c9_identity_mismatch.1 envC false "post" "m" "Y"
    [("nickname", .str "n"), ("sec_uid", .str "X"), ("uid", .str "1")]
    (by decide)

end TTD
